import Mathlib

set_option linter.unusedVariables false

/-!
# Verification of the publish relay pipeline (`src/app.py`)

A shallow embedding of the single-file aiohttp application `app.py`:
a webhook receiver that authenticates a request by a static key, then in a
background thread downloads a thumbnail, uploads it to the WordPress media
endpoint, creates a post, and notifies a workflow webhook.

Modelling choices:
* JSON values are the inductive `JValue`; numbers are integers (no claim
  involves fractional numbers, and fractional/exponent literal forms are
  outside the model).
* `json.loads` is modelled by the executable parser `jsonParse`
  (fuel-indexed recursive descent); `\uXXXX` string escapes are outside
  the model.
* The three upstream HTTP collaborators (image host, WordPress, workflow
  webhook) are abstracted by a `World` record fixing each call's outcome;
  the pipeline functions return their Python return value together with a
  trace of the outward-visible events (HTTP call attempts, temporary-file
  creation/deletion) in program order.
* Python truthiness of JSON values is `truthy`; `dict.get(k)` on a JSON
  object is `alookup` (absent key gives `JValue.null`, standing for
  Python's `None`); `dict.get` on a non-dict raises `AttributeError` and
  `d[k]` raises `KeyError`/`TypeError`, modelled as `none` results that
  the pipeline propagates as a crash, exactly where the source has no
  matching `except` clause.
-/

/-- A JSON value as produced by `json.loads`. Numbers are modelled as
integers. Objects keep insertion order with unique keys, as Python dicts. -/
inductive JValue where
  | null : JValue
  | bool : Bool → JValue
  | num : Int → JValue
  | str : String → JValue
  | arr : List JValue → JValue
  | obj : List (String × JValue) → JValue
deriving Repr

mutual

def JValue.decEq : (a b : JValue) → Decidable (a = b)
  | .null, .null => isTrue rfl
  | .bool a, .bool b =>
      match decEq a b with
      | isTrue h => isTrue (by rw [h])
      | isFalse h => isFalse (fun e => h (by injection e))
  | .num a, .num b =>
      match decEq a b with
      | isTrue h => isTrue (by rw [h])
      | isFalse h => isFalse (fun e => h (by injection e))
  | .str a, .str b =>
      match decEq a b with
      | isTrue h => isTrue (by rw [h])
      | isFalse h => isFalse (fun e => h (by injection e))
  | .arr xs, .arr ys =>
      match decEqJList xs ys with
      | isTrue h => isTrue (by rw [h])
      | isFalse h => isFalse (fun e => h (by injection e))
  | .obj xs, .obj ys =>
      match decEqJObj xs ys with
      | isTrue h => isTrue (by rw [h])
      | isFalse h => isFalse (fun e => h (by injection e))
  | .null, .bool _ => isFalse (fun h => by injection h)
  | .null, .num _ => isFalse (fun h => by injection h)
  | .null, .str _ => isFalse (fun h => by injection h)
  | .null, .arr _ => isFalse (fun h => by injection h)
  | .null, .obj _ => isFalse (fun h => by injection h)
  | .bool _, .null => isFalse (fun h => by injection h)
  | .bool _, .num _ => isFalse (fun h => by injection h)
  | .bool _, .str _ => isFalse (fun h => by injection h)
  | .bool _, .arr _ => isFalse (fun h => by injection h)
  | .bool _, .obj _ => isFalse (fun h => by injection h)
  | .num _, .null => isFalse (fun h => by injection h)
  | .num _, .bool _ => isFalse (fun h => by injection h)
  | .num _, .str _ => isFalse (fun h => by injection h)
  | .num _, .arr _ => isFalse (fun h => by injection h)
  | .num _, .obj _ => isFalse (fun h => by injection h)
  | .str _, .null => isFalse (fun h => by injection h)
  | .str _, .bool _ => isFalse (fun h => by injection h)
  | .str _, .num _ => isFalse (fun h => by injection h)
  | .str _, .arr _ => isFalse (fun h => by injection h)
  | .str _, .obj _ => isFalse (fun h => by injection h)
  | .arr _, .null => isFalse (fun h => by injection h)
  | .arr _, .bool _ => isFalse (fun h => by injection h)
  | .arr _, .num _ => isFalse (fun h => by injection h)
  | .arr _, .str _ => isFalse (fun h => by injection h)
  | .arr _, .obj _ => isFalse (fun h => by injection h)
  | .obj _, .null => isFalse (fun h => by injection h)
  | .obj _, .bool _ => isFalse (fun h => by injection h)
  | .obj _, .num _ => isFalse (fun h => by injection h)
  | .obj _, .str _ => isFalse (fun h => by injection h)
  | .obj _, .arr _ => isFalse (fun h => by injection h)

def decEqJList : (xs ys : List JValue) → Decidable (xs = ys)
  | [], [] => isTrue rfl
  | [], _ :: _ => isFalse (fun h => by injection h)
  | _ :: _, [] => isFalse (fun h => by injection h)
  | x :: xs, y :: ys =>
      match JValue.decEq x y with
      | isFalse h => isFalse (fun e => h (by injection e))
      | isTrue h1 =>
          match decEqJList xs ys with
          | isTrue h2 => isTrue (by rw [h1, h2])
          | isFalse h2 => isFalse (fun e => h2 (by injection e))

def decEqJObj : (xs ys : List (String × JValue)) → Decidable (xs = ys)
  | [], [] => isTrue rfl
  | [], _ :: _ => isFalse (fun h => by injection h)
  | _ :: _, [] => isFalse (fun h => by injection h)
  | (ka, va) :: xs, (kb, vb) :: ys =>
      match decEq ka kb with
      | isFalse h => isFalse (fun e => h (by cases e; rfl))
      | isTrue h0 =>
          match JValue.decEq va vb with
          | isFalse h => isFalse (fun e => h (by cases e; rfl))
          | isTrue h1 =>
              match decEqJObj xs ys with
              | isTrue h2 => isTrue (by rw [h0, h1, h2])
              | isFalse h2 => isFalse (fun e => h2 (by injection e))

end

instance : DecidableEq JValue := JValue.decEq

/-- Python truthiness of a JSON value (`if x:`): `None`, `False`, `0`,
`""`, `[]` and `{}` are falsy, everything else truthy. -/
def truthy : JValue → Bool
  | JValue.null => false
  | JValue.bool b => b
  | JValue.num n => n != 0
  | JValue.str s => s != ""
  | JValue.arr xs => !xs.isEmpty
  | JValue.obj fs => !fs.isEmpty

/-- `fs.get(k)` on a Python dict represented as an association list with
unique keys: the value at `k`, or `JValue.null` (Python `None`) if absent. -/
def alookup : List (String × JValue) → String → JValue
  | [], _ => JValue.null
  | (k, v) :: rest, key => if k = key then v else alookup rest key

/-- `d.get(k)` where `d` is any JSON value: on a non-object, Python raises
`AttributeError` (`none`); on an object it returns `some (alookup _ k)`. -/
def pyDictGet : JValue → String → Option JValue
  | JValue.obj fs, k => some (alookup fs k)
  | _, _ => none

/-- `d[k]` where `d` is any JSON value: on a non-object Python raises
`TypeError`, on an object missing `k` it raises `KeyError` — both `none`. -/
def pyIndex : JValue → String → Option JValue
  | JValue.obj fs, k =>
      match fs.find? (fun p => p.1 = k) with
      | some p => some p.2
      | none => none
  | _, _ => none

/-- Prepend a member to the (already parsed) later members of a JSON
object. A key duplicated later in the source text wins (Python dict
semantics), so an earlier member with a reoccurring key is dropped. -/
def objInsert (fs : List (String × JValue)) (k : String) (v : JValue) :
    List (String × JValue) :=
  if fs.any (fun p => p.1 = k) then fs else (k, v) :: fs

/-- The four JSON whitespace characters. -/
def isJsonWs (c : Char) : Bool :=
  [' ', '\t', '\n', '\r'].contains c

/-- Drop leading JSON whitespace. -/
def skipWs : List Char → List Char
  | [] => []
  | c :: cs => if isJsonWs c then skipWs cs else c :: cs

/-- One JSON string escape character (after a backslash). `\uXXXX` is
outside the model. -/
def unescapeChar (c : Char) : Option Char :=
  if c = 'n' then some '\n'
  else if c = 't' then some '\t'
  else if c = 'r' then some '\r'
  else if c = 'b' then some (Char.ofNat 8)
  else if c = 'f' then some (Char.ofNat 12)
  else if c = '"' ∨ c = '\\' ∨ c = '/' then some c
  else none

/-- Parse the body of a JSON string literal (the opening quote already
consumed), returning the characters and the rest of the input. -/
def parseStrChars : List Char → Option (List Char × List Char)
  | [] => none
  | c :: cs =>
      if c = '"' then some ([], cs)
      else if c = '\\' then
        match cs with
        | [] => none
        | e :: cs' =>
            match unescapeChar e with
            | some ch =>
                match parseStrChars cs' with
                | some (s, r) => some (ch :: s, r)
                | none => none
            | none => none
      else
        match parseStrChars cs with
        | some (s, r) => some (c :: s, r)
        | none => none

/-- Split off leading decimal digits. -/
def takeDigits : List Char → List Char × List Char
  | [] => ([], [])
  | c :: cs =>
      if c.isDigit then
        let (ds, r) := takeDigits cs
        (c :: ds, r)
      else ([], c :: cs)

/-- Digits to a natural number. -/
def digitsToNat (ds : List Char) : Nat :=
  ds.foldl (fun n c => n * 10 + (c.toNat - 48)) 0

/-- Expect a literal run of characters. -/
def expectChars : List Char → List Char → Option (List Char)
  | [], cs => some cs
  | _, [] => none
  | e :: es, c :: cs => if c = e then expectChars es cs else none

mutual

/-- Fuel-indexed recursive-descent parser for one JSON value, modelling
`json.loads` (integers only; see module comment). Returns the value and the
remaining input. -/
def parseJ : Nat → List Char → Option (JValue × List Char)
  | 0, _ => none
  | fuel + 1, cs =>
      match skipWs cs with
      | [] => none
      | c :: rest =>
          if c = 'n' then
            match expectChars ['u', 'l', 'l'] rest with
            | some r => some (JValue.null, r)
            | none => none
          else if c = 't' then
            match expectChars ['r', 'u', 'e'] rest with
            | some r => some (JValue.bool true, r)
            | none => none
          else if c = 'f' then
            match expectChars ['a', 'l', 's', 'e'] rest with
            | some r => some (JValue.bool false, r)
            | none => none
          else if c = '"' then
            match parseStrChars rest with
            | some (s, r) => some (JValue.str (String.mk s), r)
            | none => none
          else if c = '[' then
            match skipWs rest with
            | ']' :: r => some (JValue.arr [], r)
            | rest' =>
                match parseArrItems fuel rest' with
                | some (xs, r) => some (JValue.arr xs, r)
                | none => none
          else if c = '{' then
            match skipWs rest with
            | '}' :: r => some (JValue.obj [], r)
            | rest' =>
                match parseObjItems fuel rest' with
                | some (fs, r) => some (JValue.obj fs, r)
                | none => none
          else if c = '-' then
            match takeDigits rest with
            | ([], _) => none
            | (ds, r) => some (JValue.num (-(digitsToNat ds : Int)), r)
          else if c.isDigit then
            match takeDigits (c :: rest) with
            | ([], _) => none
            | (ds, r) => some (JValue.num (digitsToNat ds), r)
          else none

/-- Comma-separated JSON array items, up to and including `]`. -/
def parseArrItems : Nat → List Char → Option (List JValue × List Char)
  | 0, _ => none
  | fuel + 1, cs =>
      match parseJ fuel cs with
      | none => none
      | some (v, r) =>
          match skipWs r with
          | ']' :: r' => some ([v], r')
          | ',' :: r' =>
              match parseArrItems fuel r' with
              | some (xs, r'') => some (v :: xs, r'')
              | none => none
          | _ => none

/-- Comma-separated JSON object members, up to and including `}`. -/
def parseObjItems : Nat → List Char → Option (List (String × JValue) × List Char)
  | 0, _ => none
  | fuel + 1, cs =>
      match skipWs cs with
      | '"' :: rest =>
          match parseStrChars rest with
          | none => none
          | some (k, r) =>
              match skipWs r with
              | ':' :: r' =>
                  match parseJ fuel r' with
                  | none => none
                  | some (v, r'') =>
                      match skipWs r'' with
                      | '}' :: r3 => some ([(String.mk k, v)], r3)
                      | ',' :: r3 =>
                          match parseObjItems fuel r3 with
                          | some (fs, r4) =>
                              some (objInsert fs (String.mk k) v, r4)
                          | none => none
                      | _ => none
              | _ => none
      | _ => none

end

/-- `json.loads`: parse a whole string as one JSON document (trailing
whitespace allowed, trailing data rejected). `none` is
`json.JSONDecodeError`. -/
def jsonParse (s : String) : Option JValue :=
  match parseJ (2 * s.length + 2) s.toList with
  | some (v, rest) => if (skipWs rest).isEmpty then some v else none
  | none => none

/-- Outcome of each upstream HTTP collaborator, fixed per pipeline run.
* `imageGet = false`: `requests.get` on the thumbnail URL raised a
  `RequestException` (transport error or `raise_for_status`).
* `mediaUpload = none`: the media-endpoint POST raised (transport,
  `raise_for_status`, or response-JSON decode); `some b`: it succeeded
  and its JSON body decoded to `b`.
* `postCreate`: likewise for the posts endpoint.
* `notifyStatus = none`: the webhook POST raised; `some c`: it returned
  HTTP status `c`. -/
structure World where
  imageGet : Bool
  mediaUpload : Option JValue
  postCreate : Option JValue
  notifyStatus : Option Nat

/-- The JSON body sent to the workflow webhook by `notify_successful_post`
(`app.py` lines 119-123): keys `post_id`, `status`, `daprun_id`. -/
structure NotifyBody where
  post_id : JValue
  status : String
  daprun_id : JValue
deriving DecidableEq, Repr

/-- Outward-visible events of a pipeline run, in program order: each
upstream HTTP call attempt and each temporary-file creation/deletion. -/
inductive Event where
  | imageGetReq : JValue → Event
  | tmpCreate : Event
  | mediaUploadReq : Event
  | tmpDelete : Event
  | postCreateReq : JValue → JValue → Event
  | notifyReq : NotifyBody → Event
deriving DecidableEq, Repr

/-- `Event.postCreateReq categories featured_media` carries the two
payload fields the claims inspect. -/
def isPostCreate : Event → Bool
  | Event.postCreateReq _ _ => true
  | _ => false

/-- Recognize the webhook notification event. -/
def isNotify : Event → Bool
  | Event.notifyReq _ => true
  | _ => false

/-- What `upload_image_to_wordpress` does on return: a Python value
(`JValue.null` models returning `None`), or an uncaught exception
(`AttributeError` from `.get` on a non-dict response body — the `except`
clause catches only `requests.RequestException`). -/
inductive UploadResult where
  | value : JValue → UploadResult
  | crash : UploadResult
deriving DecidableEq, Repr

/-- `upload_image_to_wordpress` (`app.py` lines 24-75). Downloads the
image, saves it to a unique temporary file, uploads it to the media
endpoint, and returns `response.json().get('id')`; on `RequestException`
it logs and returns `None`; the `finally` block deletes the temporary
file whenever one was created. The trace records, in order, the download
attempt, temp-file creation, the media POST attempt, and temp-file
deletion. -/
def upload_image_to_wordpress (image_url alt description title username
    password : JValue) (w : World) : UploadResult × List Event :=
  if w.imageGet then
    match w.mediaUpload with
    | some respBody =>
        match pyDictGet respBody "id" with
        | some attachment_id =>
            (UploadResult.value attachment_id,
             [Event.imageGetReq image_url, Event.tmpCreate,
              Event.mediaUploadReq, Event.tmpDelete])
        | none =>
            (UploadResult.crash,
             [Event.imageGetReq image_url, Event.tmpCreate,
              Event.mediaUploadReq, Event.tmpDelete])
    | none =>
        (UploadResult.value JValue.null,
         [Event.imageGetReq image_url, Event.tmpCreate,
          Event.mediaUploadReq, Event.tmpDelete])
  else
    (UploadResult.value JValue.null, [Event.imageGetReq image_url])

/-- `notify_successful_post` (`app.py` lines 116-140): POSTs
`{post_id, status: "successful", daprun_id}` to the workflow webhook;
returns `True` on HTTP 200, `False` on any other status or exception. -/
def notify_successful_post (post_id daprun_id : JValue) (w : World) :
    Bool × List Event :=
  ((match w.notifyStatus with
    | some 200 => true
    | some _ => false
    | none => false),
   [Event.notifyReq ⟨post_id, "successful", daprun_id⟩])

/-- What `create_post_in_wordpress` does on return: the decoded posts
response (`success`), `None` (`failed`), or an uncaught exception
(`crash`: a propagated `AttributeError` from the upload step, or
`KeyError`/`TypeError` from `response_data['id']`, none of which match
the `except requests.RequestException` clause). -/
inductive PostResult where
  | success : JValue → PostResult
  | failed : PostResult
  | crash : PostResult
deriving DecidableEq, Repr

/-- `create_post_in_wordpress` (`app.py` lines 77-114). Runs the upload;
if the returned attachment id is truthy, POSTs the post payload (the
trace records its `categories` and `featured_media` fields), and on
success notifies the webhook with `response_data['id']` and `daprun_id`,
then returns the decoded response. A falsy attachment id logs and falls
through to `return None`; a posts-endpoint `RequestException` is caught
and also returns `None`. -/
def create_post_in_wordpress (title author content status categories
    thumbnail_url alt description username password daprun_id : JValue)
    (w : World) : PostResult × List Event :=
  let u := upload_image_to_wordpress thumbnail_url alt description title
    username password w
  match u.1 with
  | UploadResult.crash => (PostResult.crash, u.2)
  | UploadResult.value thumbnail_attachment_id =>
      if truthy thumbnail_attachment_id then
        match w.postCreate with
        | some response_data =>
            match pyIndex response_data "id" with
            | some post_id =>
                let n := notify_successful_post post_id daprun_id w
                (PostResult.success response_data,
                 u.2 ++ [Event.postCreateReq categories thumbnail_attachment_id]
                     ++ n.2)
            | none =>
                (PostResult.crash,
                 u.2 ++ [Event.postCreateReq categories thumbnail_attachment_id])
        | none =>
            (PostResult.failed,
             u.2 ++ [Event.postCreateReq categories thumbnail_attachment_id])
      else
        (PostResult.failed, u.2)

/-- Why `process_media_and_post_async` aborted the categories step. -/
inductive CatErr where
  | decode : CatErr
  | notList : CatErr
deriving DecidableEq, Repr

/-- The categories normalization of `app.py` lines 158-167: a string is
decoded with `json.loads` (`JSONDecodeError` aborts with a logged decode
error); a non-string non-list aborts with the shape error; a list — and
any value decoded from a string — is kept as is. -/
def categoriesNorm : JValue → Except CatErr JValue
  | JValue.str s =>
      match jsonParse s with
      | some v => Except.ok v
      | none => Except.error CatErr.decode
  | JValue.arr xs => Except.ok (JValue.arr xs)
  | _ => Except.error CatErr.notList

/-- The required-parameter check of `app.py` line 169: the truthiness
conjunction over the eleven request fields, with `categories` already
normalized. -/
def allParamsTruthy (fs : List (String × JValue)) (categories : JValue) :
    Bool :=
  truthy (alookup fs "title") && truthy (alookup fs "author") &&
  truthy (alookup fs "content") && truthy (alookup fs "status") &&
  truthy categories && truthy (alookup fs "thumbnail_url") &&
  truthy (alookup fs "alt_text") && truthy (alookup fs "description") &&
  truthy (alookup fs "username") && truthy (alookup fs "password") &&
  truthy (alookup fs "daprun_id")

/-- Outcome of `process_media_and_post_async`: an uncaught
`AttributeError` (`.get` on a non-dict body), one of the two logged
aborts of the categories step, the logged "Missing required parameters"
abort, or a completed call into `create_post_in_wordpress`. -/
inductive ProcResult where
  | crash : ProcResult
  | decodeError : ProcResult
  | notListError : ProcResult
  | missingParams : ProcResult
  | ran : PostResult → ProcResult
deriving DecidableEq, Repr

/-- The part of `process_media_and_post_async` after the categories
normalization (`app.py` lines 169-173): if every required field is
truthy, run `create_post_in_wordpress` on the request's fields; else log
"Missing required parameters" and return without any upstream call. -/
def afterCategories (fs : List (String × JValue)) (categories : JValue)
    (w : World) : ProcResult × List Event :=
  if allParamsTruthy fs categories then
    let r := create_post_in_wordpress (alookup fs "title")
      (alookup fs "author") (alookup fs "content") (alookup fs "status")
      categories (alookup fs "thumbnail_url") (alookup fs "alt_text")
      (alookup fs "description") (alookup fs "username")
      (alookup fs "password") (alookup fs "daprun_id") w
    (ProcResult.ran r.1, r.2)
  else
    (ProcResult.missingParams, [])

/-- `process_media_and_post_async` (`app.py` lines 145-173): read the
eleven fields with `req_data.get(...)` (pure, so reading before or after
the categories branch is equivalent), normalize `categories`, check the
required parameters, and run the pipeline. On a non-dict `req_data` the
very first `.get` raises `AttributeError` (uncaught in the worker
thread). -/
def process_media_and_post_async (req_data : JValue) (w : World) :
    ProcResult × List Event :=
  match req_data with
  | JValue.obj fs =>
      match categoriesNorm (alookup fs "categories") with
      | Except.error CatErr.decode => (ProcResult.decodeError, [])
      | Except.error CatErr.notList => (ProcResult.notListError, [])
      | Except.ok categories => afterCategories fs categories w
  | _ => (ProcResult.crash, [])

/-- The static shared secret (`app.py` line 18). -/
def API_KEY : String := "Sample_Key"

/-- An HTTP response of the handler: status code and the `message` field
of its JSON body. -/
structure HttpResp where
  status : Nat
  message : String
deriving DecidableEq, Repr

/-- Whether the handler started the background worker thread, and with
which request data. -/
inductive Dispatch where
  | noDispatch : Dispatch
  | dispatched : JValue → Dispatch
deriving DecidableEq, Repr

/-- The `/api/create_post` handler `create_post` (`app.py` lines
176-204). `body` is the raw request body, `key` the optional `key`
header. A body that `json.loads` rejects raises `json.JSONDecodeError`
inside `await request.json()`, caught at line 199: HTTP 400 with the
constant message `"Invalid JSON format"` (no detail). The
`json.dumps(req_data)` re-validation at lines 183-187 cannot fail on a
value produced by `json.loads`, so its 400-with-detail branch — and the
generic 500 branch — are unreachable and not modelled. With the parsed
body, a matching key dispatches the worker thread and answers 200;
otherwise 401 and no dispatch. -/
def create_post (body : String) (key : Option String) :
    HttpResp × Dispatch :=
  match jsonParse body with
  | none => (⟨400, "Invalid JSON format"⟩, Dispatch.noDispatch)
  | some req_data =>
      if key = some API_KEY then
        (⟨200, "Key authentication successful"⟩, Dispatch.dispatched req_data)
      else
        (⟨401, "Key authentication failed"⟩, Dispatch.noDispatch)

/-- A whole request handling including the background thread it may have
started: the handler's HTTP response, together with every upstream event
of the run (the handler itself makes no upstream call; only the
dispatched worker does). -/
def handle_and_run (body : String) (key : Option String) (w : World) :
    HttpResp × List Event :=
  match create_post body key with
  | (resp, Dispatch.dispatched req_data) =>
      (resp, (process_media_and_post_async req_data w).2)
  | (resp, Dispatch.noDispatch) => (resp, [])

/-- A request body carrying all eleven required fields, truthy, with
`daprun_id = "B"` and an extra `run_id = "A"` field (the source never
reads `run_id`). -/
def reqFieldsAB : List (String × JValue) :=
  [("title", JValue.str "T"), ("author", JValue.str "A1"),
   ("content", JValue.str "C"), ("status", JValue.str "publish"),
   ("categories", JValue.arr [JValue.num 1]),
   ("thumbnail_url", JValue.str "U"), ("alt_text", JValue.str "alt"),
   ("description", JValue.str "D"), ("username", JValue.str "u"),
   ("password", JValue.str "p"), ("daprun_id", JValue.str "B"),
   ("run_id", JValue.str "A")]

/-- A world where every upstream call succeeds: the media upload answers
`{"id": 3}`, the posts endpoint `{"id": 7}`, the webhook 200. -/
def wAllOk : World :=
  ⟨true, some (JValue.obj [("id", JValue.num 3)]),
   some (JValue.obj [("id", JValue.num 7)]), some 200⟩

example :
    process_media_and_post_async (JValue.obj reqFieldsAB) wAllOk =
      (ProcResult.ran (PostResult.success (JValue.obj [("id", JValue.num 7)])),
       [Event.imageGetReq (JValue.str "U"), Event.tmpCreate,
        Event.mediaUploadReq, Event.tmpDelete,
        Event.postCreateReq (JValue.arr [JValue.num 1]) (JValue.num 3),
        Event.notifyReq ⟨JValue.num 7, "successful", JValue.str "B"⟩]) := by
  decide

example : jsonParse "[1,2,3]" = some (JValue.arr [JValue.num 1, JValue.num 2, JValue.num 3]) := by decide
example : jsonParse "not-json" = none := by decide
example : jsonParse "5" = some (JValue.num 5) := by decide
example : jsonParse "\"abc\"" = some (JValue.str "abc") := by decide
example : jsonParse "\x7b\"id\": 7\x7d" = some (JValue.obj [("id", JValue.num 7)]) := by decide
example : jsonParse "\x7b" = none := by decide
example : jsonParse " [ ] " = some (JValue.arr []) := by decide
example : jsonParse "[1, \x7b\"a\": null, \"a\": true\x7d]" = some (JValue.arr [JValue.num 1, JValue.obj [("a", JValue.bool true)]]) := by decide

/-! ## Claims about the request handler -/

/-- C2, counterexample to the claim as stated: a request whose `key`
header is missing but whose body `"{"` is malformed JSON is answered
with HTTP 400 and the malformed-body message, not with HTTP 401 and
`"Key authentication failed"` — the handler parses the body before it
checks the key. -/
theorem C2_counterexample :
    (create_post "\x7b" none).1.status = 400 ∧
    (create_post "\x7b" none).1 ≠ ⟨401, "Key authentication failed"⟩ ∧
    (create_post "\x7b" none).2 = Dispatch.noDispatch := by
  decide

/-- C2 (amended): for every request whose body parses as JSON and whose
`key` header is missing or differs from the static secret, the handler
answers HTTP 401 with message `"Key authentication failed"`, does not
dispatch the background pipeline, and no upstream event occurs. -/
theorem C2_bad_key_401 (body : String) (req : JValue) (key : Option String)
    (w : World) (hparse : jsonParse body = some req)
    (hkey : key ≠ some API_KEY) :
    handle_and_run body key w = (⟨401, "Key authentication failed"⟩, []) := by
  unfold handle_and_run create_post
  rw [hparse]
  simp [hkey]

/-- C2 witness: the amended theorem at body `"{}"` and a missing key. -/
theorem C2_bad_key_401_witness :
    handle_and_run "{}" none wAllOk =
      (⟨401, "Key authentication failed"⟩, []) :=
  C2_bad_key_401 "{}" (JValue.obj []) none wAllOk (by decide) (by decide)

/-- C3: for every body that parses as JSON, presented with the correct
key, the handler answers HTTP 200 with message
`"Key authentication successful"` and dispatches the parsed body to the
background pipeline; the response is the same for every request content
`req` and every pipeline outcome `w`. -/
theorem C3_auth_success (body : String) (req : JValue) (w : World)
    (hparse : jsonParse body = some req) :
    (handle_and_run body (some API_KEY) w).1 =
        ⟨200, "Key authentication successful"⟩ ∧
    (create_post body (some API_KEY)).2 = Dispatch.dispatched req := by
  unfold handle_and_run create_post
  rw [hparse]
  simp

/-- C3 witness: the theorem at body `"{}"` (and at a world where every
upstream call would fail, showing the response ignores the pipeline). -/
theorem C3_auth_success_witness :
    (handle_and_run "{}" (some API_KEY) ⟨false, none, none, none⟩).1 =
        ⟨200, "Key authentication successful"⟩ ∧
    (create_post "{}" (some API_KEY)).2 =
        Dispatch.dispatched (JValue.obj []) :=
  C3_auth_success "{}" (JValue.obj []) ⟨false, none, none, none⟩ (by decide)

set_option maxRecDepth 4096 in
/-- C4, counterexample to the claim as stated: for the malformed body
`"{"` the 400 response's message is the constant
`"Invalid JSON format"`; it does not carry a parse-error detail (it is
not of the form `"Invalid JSON format: <detail>"`). The only source
branch producing the detailed message (`app.py` line 187) requires
`json.dumps` to fail on a value `json.loads` produced, which cannot
happen. -/
theorem C4_counterexample :
    (create_post "\x7b" none).1.status = 400 ∧
    (create_post "\x7b" none).1.message = "Invalid JSON format" ∧
    ((create_post "\x7b" none).1.message.startsWith "Invalid JSON format: ")
      = false := by
  decide

/-- C4 (amended): for every request whose body is malformed JSON, the
handler answers HTTP 400 with the constant message
`"Invalid JSON format"` (no detail), regardless of the key header, the
pipeline is not dispatched, and no upstream event occurs. -/
theorem C4_malformed_400 (body : String) (key : Option String) (w : World)
    (hparse : jsonParse body = none) :
    handle_and_run body key w = (⟨400, "Invalid JSON format"⟩, []) := by
  unfold handle_and_run create_post
  rw [hparse]

/-- C4 witness: the amended theorem at body `"{"`. -/
theorem C4_malformed_400_witness :
    handle_and_run "\x7b" none wAllOk = (⟨400, "Invalid JSON format"⟩, []) :=
  C4_malformed_400 "\x7b" none wAllOk (by decide)

/-! ## Claims about the upload and post-creation steps -/

/-- The value `upload_image_to_wordpress` returns, as a function of the
upstream outcomes alone (the field arguments feed the HTTP payloads but
never the control flow). -/
def uploadOutcome (w : World) : UploadResult :=
  if w.imageGet then
    match w.mediaUpload with
    | some respBody =>
        match pyDictGet respBody "id" with
        | some attachment_id => UploadResult.value attachment_id
        | none => UploadResult.crash
    | none => UploadResult.value JValue.null
  else
    UploadResult.value JValue.null

lemma upload_fst (image_url alt description title username password : JValue)
    (w : World) :
    (upload_image_to_wordpress image_url alt description title username
        password w).1 = uploadOutcome w := by
  rcases w with ⟨ig, mu, pc, ns⟩
  unfold upload_image_to_wordpress uploadOutcome
  cases ig
  · simp
  · cases mu with
    | none => simp
    | some b => cases hb : pyDictGet b "id" <;> simp [hb]

/-- Whether the upload step handed the pipeline a truthy attachment id. -/
def uploadOkId (w : World) : Bool :=
  match uploadOutcome w with
  | UploadResult.value v => truthy v
  | UploadResult.crash => false

/-- Whether the posts endpoint succeeded with a JSON body carrying an
`id` member. -/
def postsIdOk (w : World) : Bool :=
  match w.postCreate with
  | some b => (pyIndex b "id").isSome
  | none => false

/-- Recognize a post-creation attempt whose payload carries exactly the
categories value `v`. -/
def isPostCreateWithCats (v : JValue) : Event → Bool
  | Event.postCreateReq c _ => decide (c = v)
  | _ => false

lemma upload_snd_no_post_notify (v image_url alt description title username
    password : JValue) (w : World) :
    (upload_image_to_wordpress image_url alt description title username
        password w).2.any isPostCreate = false ∧
    (upload_image_to_wordpress image_url alt description title username
        password w).2.any isNotify = false ∧
    (upload_image_to_wordpress image_url alt description title username
        password w).2.any (isPostCreateWithCats v) = false := by
  rcases w with ⟨ig, mu, pc, ns⟩
  unfold upload_image_to_wordpress
  cases ig
  · simp [isPostCreate, isNotify, isPostCreateWithCats]
  · cases mu with
    | none => simp [isPostCreate, isNotify, isPostCreateWithCats]
    | some b =>
        cases hb : pyDictGet b "id" <;>
          simp [hb, isPostCreate, isNotify, isPostCreateWithCats]

lemma create_post_in_wordpress_events (title author content status
    categories thumbnail_url alt description username password
    daprun_id : JValue) (w : World) :
    ((create_post_in_wordpress title author content status categories
        thumbnail_url alt description username password daprun_id
        w).2.any isPostCreate = uploadOkId w) ∧
    ((create_post_in_wordpress title author content status categories
        thumbnail_url alt description username password daprun_id
        w).2.any isNotify = (uploadOkId w && postsIdOk w)) ∧
    ((create_post_in_wordpress title author content status categories
        thumbnail_url alt description username password daprun_id
        w).2.any (isPostCreateWithCats categories) = uploadOkId w) := by
  obtain ⟨h1, h2, h3⟩ := upload_snd_no_post_notify categories thumbnail_url
    alt description title username password w
  simp only [create_post_in_wordpress, uploadOkId]
  rw [upload_fst]
  cases ho : uploadOutcome w with
  | crash => simp [h1, h2, h3]
  | value v =>
      cases hv : truthy v
      · simp [hv, h1, h2, h3]
      · cases hpc : w.postCreate with
        | none =>
            simp [hv, hpc, h1, h2, h3, postsIdOk, isPostCreate, isNotify,
              isPostCreateWithCats]
        | some b =>
            cases hid : pyIndex b "id" <;>
              simp [hv, hpc, hid, h1, h2, h3, postsIdOk, isPostCreate,
                isNotify, isPostCreateWithCats, notify_successful_post]

/-- Recognize temp-file creation. -/
def isTmpCreate : Event → Bool
  | Event.tmpCreate => true
  | _ => false

/-- Recognize temp-file deletion. -/
def isTmpDelete : Event → Bool
  | Event.tmpDelete => true
  | _ => false

/-- C1: pipeline ordering invariant. In every run of
`create_post_in_wordpress`, a post-creation request occurs exactly when
the media upload step returned a truthy media identifier
(`uploadOkId`), and the completion notification occurs exactly when,
additionally, the posts endpoint succeeded with a body carrying an `id`
(`postsIdOk`); in particular, whenever the image fetch/upload step
fails — returning `None`, which is falsy — neither the post creation
nor the notification is ever attempted. -/
theorem C1_pipeline_ordering (title author content status categories
    thumbnail_url alt description username password daprun_id : JValue)
    (w : World) :
    ((create_post_in_wordpress title author content status categories
        thumbnail_url alt description username password daprun_id
        w).2.any isPostCreate = uploadOkId w) ∧
    ((create_post_in_wordpress title author content status categories
        thumbnail_url alt description username password daprun_id
        w).2.any isNotify = (uploadOkId w && postsIdOk w)) ∧
    (uploadOkId w = false →
      (create_post_in_wordpress title author content status categories
          thumbnail_url alt description username password daprun_id
          w).2.any isPostCreate = false ∧
      (create_post_in_wordpress title author content status categories
          thumbnail_url alt description username password daprun_id
          w).2.any isNotify = false) := by
  obtain ⟨h1, h2, h3⟩ := create_post_in_wordpress_events title author
    content status categories thumbnail_url alt description username
    password daprun_id w
  exact ⟨h1, h2, fun hf => ⟨by rw [h1, hf], by rw [h2, hf]; rfl⟩⟩

/-- C1 witness: in a world where the image download fails, the upload
step yields no truthy id and the run makes no post-creation and no
notification request. -/
theorem C1_pipeline_ordering_witness :
    uploadOkId ⟨false, none, none, none⟩ = false ∧
    ((create_post_in_wordpress (JValue.str "x") (JValue.str "x")
        (JValue.str "x") (JValue.str "x") (JValue.arr [JValue.num 1])
        (JValue.str "x") (JValue.str "x") (JValue.str "x")
        (JValue.str "x") (JValue.str "x") (JValue.str "x")
        ⟨false, none, none, none⟩).2.any isPostCreate = false ∧
     (create_post_in_wordpress (JValue.str "x") (JValue.str "x")
        (JValue.str "x") (JValue.str "x") (JValue.arr [JValue.num 1])
        (JValue.str "x") (JValue.str "x") (JValue.str "x")
        (JValue.str "x") (JValue.str "x") (JValue.str "x")
        ⟨false, none, none, none⟩).2.any isNotify = false) :=
  ⟨by decide,
   (C1_pipeline_ordering (JValue.str "x") (JValue.str "x") (JValue.str "x")
      (JValue.str "x") (JValue.arr [JValue.num 1]) (JValue.str "x")
      (JValue.str "x") (JValue.str "x") (JValue.str "x") (JValue.str "x")
      (JValue.str "x") ⟨false, none, none, none⟩).2.2 (by decide)⟩

/-- C7: transient-file cleanup. In every run of
`upload_image_to_wordpress`, a temp-file creation occurs in the trace
iff a deletion does, creations and deletions are in bijection, and
whenever a temp file was created the run's very last event is its
deletion (the `finally` block runs on success, on a caught upload
failure, and on a propagated error after the download alike). -/
theorem C7_tmp_file_cleanup (image_url alt description title username
    password : JValue) (w : World) :
    (Event.tmpCreate ∈ (upload_image_to_wordpress image_url alt
        description title username password w).2 ↔
      Event.tmpDelete ∈ (upload_image_to_wordpress image_url alt
        description title username password w).2) ∧
    ((upload_image_to_wordpress image_url alt description title username
        password w).2.countP (fun e => isTmpCreate e) =
      (upload_image_to_wordpress image_url alt description title username
        password w).2.countP (fun e => isTmpDelete e)) ∧
    ((upload_image_to_wordpress image_url alt description title username
        password w).2.getLast? = some Event.tmpDelete ↔
      Event.tmpCreate ∈ (upload_image_to_wordpress image_url alt
        description title username password w).2) := by
  rcases w with ⟨ig, mu, pc, ns⟩
  unfold upload_image_to_wordpress
  cases ig
  · simp [isTmpCreate, isTmpDelete]
  · cases mu with
    | none => simp [isTmpCreate, isTmpDelete]
    | some b =>
        cases hb : pyDictGet b "id" <;> simp [hb, isTmpCreate, isTmpDelete]

/-- C9: a successful media upload whose JSON body yields a falsy `id`
(`None` when the field is absent, or the id `0`) is treated as a
failure: `upload_image_to_wordpress` returns that falsy value, and the
pipeline creates no post and sends no notification. -/
theorem C9_falsy_media_id (title author content status categories
    thumbnail_url alt description username password daprun_id b
    v : JValue) (w : World) (himg : w.imageGet = true)
    (hmu : w.mediaUpload = some b) (hid : pyDictGet b "id" = some v)
    (hfv : truthy v = false) :
    uploadOutcome w = UploadResult.value v ∧
    (create_post_in_wordpress title author content status categories
        thumbnail_url alt description username password daprun_id
        w).1 = PostResult.failed ∧
    ((create_post_in_wordpress title author content status categories
        thumbnail_url alt description username password daprun_id
        w).2.any isPostCreate = false) ∧
    ((create_post_in_wordpress title author content status categories
        thumbnail_url alt description username password daprun_id
        w).2.any isNotify = false) := by
  have hout : uploadOutcome w = UploadResult.value v := by
    simp [uploadOutcome, himg, hmu, hid]
  have hok : uploadOkId w = false := by
    simp [uploadOkId, hout, hfv]
  obtain ⟨h1, h2, h3⟩ := create_post_in_wordpress_events title author
    content status categories thumbnail_url alt description username
    password daprun_id w
  refine ⟨hout, ?_, by rw [h1, hok], by rw [h2, hok]; rfl⟩
  simp only [create_post_in_wordpress]
  rw [upload_fst, hout]
  simp [hfv]

/-- C9 witness: a media-endpoint success answering `{}` (no `id`)
yields the falsy `None`, and the pipeline stops there. -/
theorem C9_falsy_media_id_witness :
    uploadOutcome ⟨true, some (JValue.obj []),
        some (JValue.obj [("id", JValue.num 7)]), some 200⟩ =
      UploadResult.value JValue.null ∧
    (create_post_in_wordpress (JValue.str "x") (JValue.str "x")
        (JValue.str "x") (JValue.str "x") (JValue.arr [JValue.num 1])
        (JValue.str "x") (JValue.str "x") (JValue.str "x")
        (JValue.str "x") (JValue.str "x") (JValue.str "x")
        ⟨true, some (JValue.obj []),
         some (JValue.obj [("id", JValue.num 7)]), some 200⟩).1 =
      PostResult.failed ∧
    ((create_post_in_wordpress (JValue.str "x") (JValue.str "x")
        (JValue.str "x") (JValue.str "x") (JValue.arr [JValue.num 1])
        (JValue.str "x") (JValue.str "x") (JValue.str "x")
        (JValue.str "x") (JValue.str "x") (JValue.str "x")
        ⟨true, some (JValue.obj []),
         some (JValue.obj [("id", JValue.num 7)]), some 200⟩).2.any
        isPostCreate = false) ∧
    ((create_post_in_wordpress (JValue.str "x") (JValue.str "x")
        (JValue.str "x") (JValue.str "x") (JValue.arr [JValue.num 1])
        (JValue.str "x") (JValue.str "x") (JValue.str "x")
        (JValue.str "x") (JValue.str "x") (JValue.str "x")
        ⟨true, some (JValue.obj []),
         some (JValue.obj [("id", JValue.num 7)]), some 200⟩).2.any
        isNotify = false) :=
  C9_falsy_media_id (JValue.str "x") (JValue.str "x") (JValue.str "x")
    (JValue.str "x") (JValue.arr [JValue.num 1]) (JValue.str "x")
    (JValue.str "x") (JValue.str "x") (JValue.str "x") (JValue.str "x")
    (JValue.str "x") (JValue.obj []) JValue.null
    ⟨true, some (JValue.obj []),
     some (JValue.obj [("id", JValue.num 7)]), some 200⟩
    (by decide) (by decide) (by decide) (by decide)

/-! ## Claims about the request-processing step -/

/-- Recognize an array value. -/
def isArr : JValue → Bool
  | JValue.arr _ => true
  | _ => false

/-- Recognize a webhook notification whose run-identifier field equals
`v`. -/
def notifyRunValueIs (v : JValue) : Event → Bool
  | Event.notifyReq nb => decide (nb.daprun_id = v)
  | _ => false

/-- `reqFieldsAB` with `categories` the JSON-encoded string
`"[1,2,3]"`. -/
def reqCatJsonStr : List (String × JValue) :=
  [("title", JValue.str "T"), ("author", JValue.str "A1"),
   ("content", JValue.str "C"), ("status", JValue.str "publish"),
   ("categories", JValue.str "[1,2,3]"),
   ("thumbnail_url", JValue.str "U"), ("alt_text", JValue.str "alt"),
   ("description", JValue.str "D"), ("username", JValue.str "u"),
   ("password", JValue.str "p"), ("daprun_id", JValue.str "B")]

/-- `reqFieldsAB` with `categories` the non-JSON string `"not-json"`. -/
def reqCatNotJson : List (String × JValue) :=
  [("title", JValue.str "T"), ("author", JValue.str "A1"),
   ("content", JValue.str "C"), ("status", JValue.str "publish"),
   ("categories", JValue.str "not-json"),
   ("thumbnail_url", JValue.str "U"), ("alt_text", JValue.str "alt"),
   ("description", JValue.str "D"), ("username", JValue.str "u"),
   ("password", JValue.str "p"), ("daprun_id", JValue.str "B")]

/-- `reqFieldsAB` with `categories` the string `"5"`, which decodes to
the non-list JSON value `5`. -/
def reqCat5 : List (String × JValue) :=
  [("title", JValue.str "T"), ("author", JValue.str "A1"),
   ("content", JValue.str "C"), ("status", JValue.str "publish"),
   ("categories", JValue.str "5"),
   ("thumbnail_url", JValue.str "U"), ("alt_text", JValue.str "alt"),
   ("description", JValue.str "D"), ("username", JValue.str "u"),
   ("password", JValue.str "p"), ("daprun_id", JValue.str "B")]

/-- `reqFieldsAB` with an empty `title` string. -/
def reqEmptyTitle : List (String × JValue) :=
  [("title", JValue.str ""), ("author", JValue.str "A1"),
   ("content", JValue.str "C"), ("status", JValue.str "publish"),
   ("categories", JValue.arr [JValue.num 1]),
   ("thumbnail_url", JValue.str "U"), ("alt_text", JValue.str "alt"),
   ("description", JValue.str "D"), ("username", JValue.str "u"),
   ("password", JValue.str "p"), ("daprun_id", JValue.str "B")]

/-- `reqFieldsAB` with an empty `categories` list. -/
def reqEmptyCats : List (String × JValue) :=
  [("title", JValue.str "T"), ("author", JValue.str "A1"),
   ("content", JValue.str "C"), ("status", JValue.str "publish"),
   ("categories", JValue.arr []),
   ("thumbnail_url", JValue.str "U"), ("alt_text", JValue.str "alt"),
   ("description", JValue.str "D"), ("username", JValue.str "u"),
   ("password", JValue.str "p"), ("daprun_id", JValue.str "B")]

/-- C6: categories normalization. If the request's `categories` field is
the string `"[1,2,3]"`, the run is identical to the run on the list
`[1,2,3]` (the string is replaced by the decoded list before the
required-parameter check and before any upstream call); if it is the
string `"not-json"`, the run aborts with the logged decode error and an
empty event trace — no upstream call is made. -/
theorem C6_categories_normalization (fs : List (String × JValue))
    (w : World) :
    (alookup fs "categories" = JValue.str "[1,2,3]" →
      process_media_and_post_async (JValue.obj fs) w =
        afterCategories fs
          (JValue.arr [JValue.num 1, JValue.num 2, JValue.num 3]) w) ∧
    (alookup fs "categories" = JValue.str "not-json" →
      process_media_and_post_async (JValue.obj fs) w =
        (ProcResult.decodeError, [])) := by
  constructor
  · intro h
    have hn : categoriesNorm (alookup fs "categories") =
        Except.ok (JValue.arr [JValue.num 1, JValue.num 2, JValue.num 3]) := by
      rw [h]; rfl
    simp [process_media_and_post_async, hn]
  · intro h
    have hn : categoriesNorm (alookup fs "categories") =
        Except.error CatErr.decode := by
      rw [h]; rfl
    simp [process_media_and_post_async, hn]

/-- C6 witness: both parts at concrete requests. -/
theorem C6_categories_normalization_witness :
    process_media_and_post_async (JValue.obj reqCatJsonStr) wAllOk =
      afterCategories reqCatJsonStr
        (JValue.arr [JValue.num 1, JValue.num 2, JValue.num 3]) wAllOk ∧
    process_media_and_post_async (JValue.obj reqCatNotJson) wAllOk =
      (ProcResult.decodeError, []) :=
  ⟨(C6_categories_normalization reqCatJsonStr wAllOk).1 (by decide),
   (C6_categories_normalization reqCatNotJson wAllOk).2 (by decide)⟩

/-- C8: a `categories` string decoding to a non-list JSON value does not
abort at the decode step — the run equals the run on the decoded value
(the list-shape check of `app.py` line 165 applies only to non-string
values) — and when the other required fields are truthy the decoded
value is passed on: a post-creation request carrying exactly it occurs
whenever the upload step yields a truthy id. -/
theorem C8_non_list_string_categories (fs : List (String × JValue))
    (w : World) (s : String) (v : JValue)
    (hc : alookup fs "categories" = JValue.str s)
    (hp : jsonParse s = some v) (hnl : isArr v = false) :
    process_media_and_post_async (JValue.obj fs) w =
      afterCategories fs v w ∧
    (allParamsTruthy fs v = true →
      (process_media_and_post_async (JValue.obj fs) w).2.any
        (isPostCreateWithCats v) = uploadOkId w) := by
  have hn : categoriesNorm (alookup fs "categories") = Except.ok v := by
    rw [hc]; simp [categoriesNorm, hp]
  have h1 : process_media_and_post_async (JValue.obj fs) w =
      afterCategories fs v w := by
    simp [process_media_and_post_async, hn]
  refine ⟨h1, fun hall => ?_⟩
  rw [h1]
  simp only [afterCategories, hall, if_true]
  exact (create_post_in_wordpress_events (alookup fs "title")
    (alookup fs "author") (alookup fs "content") (alookup fs "status") v
    (alookup fs "thumbnail_url") (alookup fs "alt_text")
    (alookup fs "description") (alookup fs "username")
    (alookup fs "password") (alookup fs "daprun_id") w).2.2

/-- C8 witness: at the request with `categories = "5"` and a fully
successful world, the run equals the run on the number `5` and the
post-creation request carries `5`. -/
theorem C8_non_list_string_categories_witness :
    process_media_and_post_async (JValue.obj reqCat5) wAllOk =
      afterCategories reqCat5 (JValue.num 5) wAllOk ∧
    (process_media_and_post_async (JValue.obj reqCat5) wAllOk).2.any
      (isPostCreateWithCats (JValue.num 5)) = uploadOkId wAllOk :=
  ⟨(C8_non_list_string_categories reqCat5 wAllOk "5" (JValue.num 5)
      (by decide) (by decide) (by decide)).1,
   (C8_non_list_string_categories reqCat5 wAllOk "5" (JValue.num 5)
      (by decide) (by decide) (by decide)).2 (by decide)⟩

/-- C10: a required field that is present but falsy — in particular an
empty string in a text field or an empty (normalized) categories list —
fails the truthiness conjunction exactly like a missing field: the run
ends at the logged "Missing required parameters" abort with an empty
event trace, so no upstream HTTP call is made. -/
theorem C10_falsy_required_field (fs : List (String × JValue)) (w : World)
    (cats : JValue)
    (hn : categoriesNorm (alookup fs "categories") = Except.ok cats)
    (hfal : allParamsTruthy fs cats = false) :
    process_media_and_post_async (JValue.obj fs) w =
      (ProcResult.missingParams, []) := by
  simp [process_media_and_post_async, hn, afterCategories, hfal]

/-- C10 witness: at a request with an empty `title` string and at one
with an empty `categories` list. -/
theorem C10_falsy_required_field_witness :
    process_media_and_post_async (JValue.obj reqEmptyTitle) wAllOk =
      (ProcResult.missingParams, []) ∧
    process_media_and_post_async (JValue.obj reqEmptyCats) wAllOk =
      (ProcResult.missingParams, []) :=
  ⟨C10_falsy_required_field reqEmptyTitle wAllOk
      (JValue.arr [JValue.num 1]) (by rfl) (by decide),
   C10_falsy_required_field reqEmptyCats wAllOk (JValue.arr [])
      (by rfl) (by decide)⟩

lemma process_obj (fs : List (String × JValue)) (w : World) :
    process_media_and_post_async (JValue.obj fs) w =
      (match categoriesNorm (alookup fs "categories") with
       | Except.error CatErr.decode => (ProcResult.decodeError, [])
       | Except.error CatErr.notList => (ProcResult.notListError, [])
       | Except.ok categories => afterCategories fs categories w) := rfl

/-- C5, counterexample to the claim as stated: the run identifier the
notifier receives is NOT taken from the request's `run_id` field. At a
request carrying `run_id = "A"` and `daprun_id = "B"`, with every
upstream call succeeding and the posts endpoint answering `{"id": 7}`,
the notification that is sent carries the run value `"B"` — the
`daprun_id` field — and no notification carrying the `run_id` value
`"A"` occurs (the notification body's key is `daprun_id`, `app.py`
lines 122 and 156). -/
theorem C5_counterexample :
    alookup reqFieldsAB "run_id" = JValue.str "A" ∧
    alookup reqFieldsAB "daprun_id" = JValue.str "B" ∧
    ((process_media_and_post_async (JValue.obj reqFieldsAB) wAllOk).2.any
        (notifyRunValueIs (JValue.str "B")) = true) ∧
    ((process_media_and_post_async (JValue.obj reqFieldsAB) wAllOk).2.any
        (notifyRunValueIs (JValue.str "A")) = false) := by
  decide

/-- C5 (amended): whenever the run reaches post creation and the posts
endpoint succeeds with a body carrying an `id`, the completion notifier
is invoked with exactly that post id and the run identifier taken from
the request's `daprun_id` field, the notification body being
`{post_id, status, daprun_id}` — whatever the webhook later answers
(the world `w`, including its `notifyStatus`, is arbitrary). -/
theorem C5_notify_payload (fs : List (String × JValue)) (w : World)
    (b pid : JValue) (hpc : w.postCreate = some b)
    (hid : pyIndex b "id" = some pid)
    (hattempt : (process_media_and_post_async (JValue.obj fs) w).2.any
      isPostCreate = true) :
    Event.notifyReq ⟨pid, "successful", alookup fs "daprun_id"⟩ ∈
      (process_media_and_post_async (JValue.obj fs) w).2 := by
  rw [process_obj] at hattempt ⊢
  cases hn : categoriesNorm (alookup fs "categories") with
  | error e =>
      rw [hn] at hattempt
      cases e <;> simp at hattempt
  | ok cats =>
      rw [hn] at hattempt
      by_cases hall : allParamsTruthy fs cats = true
      · simp only [afterCategories, hall, if_true] at hattempt ⊢
        have hok : uploadOkId w = true := by
          rw [← (create_post_in_wordpress_events (alookup fs "title")
            (alookup fs "author") (alookup fs "content")
            (alookup fs "status") cats (alookup fs "thumbnail_url")
            (alookup fs "alt_text") (alookup fs "description")
            (alookup fs "username") (alookup fs "password")
            (alookup fs "daprun_id") w).1]
          exact hattempt
        simp only [create_post_in_wordpress]
        rw [upload_fst]
        cases ho : uploadOutcome w with
        | crash => exact absurd hok (by simp [uploadOkId, ho])
        | value v =>
            have hv : truthy v = true := by
              simpa [uploadOkId, ho] using hok
            rw [hpc]
            simp only [hv, if_true, hid]
            simp [notify_successful_post]
      · simp [afterCategories, hall] at hattempt

/-- C5 witness: the amended theorem at the request carrying
`daprun_id = "B"` and the all-success world answering post id 7. -/
theorem C5_notify_payload_witness :
    Event.notifyReq ⟨JValue.num 7, "successful", JValue.str "B"⟩ ∈
      (process_media_and_post_async (JValue.obj reqFieldsAB) wAllOk).2 :=
  C5_notify_payload reqFieldsAB wAllOk (JValue.obj [("id", JValue.num 7)])
    (JValue.num 7) (by decide) (by decide) (by decide)
